import Mathlib

/-! Verification of the `giftless_client` Git LFS client (`giftless_client/client.py`)
against its natural-language specification.  The Python source is shallowly
embedded: byte streams become an explicit state record, Python dicts become
association lists with insert-or-replace semantics, HTTP exchanges are
parametrised by the response the server would return, and exceptions become
`Except` values.  `hashlib.sha256` is embedded as a full executable SHA-256
over lists of byte values, and `base64.b64encode` as an executable base64
encoder, so that concrete digests can be checked by evaluation. -/

set_option maxRecDepth 8000

namespace Giftless

/-! SHA-256, embedding the `hashlib.sha256` collaborator used by
`LfsClient._get_object_attrs`.  Messages are lists of byte values (each
taken mod 256 when packed into words).  Words are `Nat` reduced mod 2^32. -/

/-- Truncate a natural number to a 32-bit word. -/
def w32 (x : Nat) : Nat := x % 4294967296

/-- Rotate a 32-bit word right by `n` bits. -/
def rotr (n x : Nat) : Nat := w32 ((x >>> n) ||| (x <<< (32 - n)))

/-- SHA-256 choice function. -/
def ch (x y z : Nat) : Nat := (x &&& y) ^^^ ((x ^^^ 4294967295) &&& z)

/-- SHA-256 majority function. -/
def maj (x y z : Nat) : Nat := (x &&& y) ^^^ (x &&& z) ^^^ (y &&& z)

/-- SHA-256 big sigma 0. -/
def bigSigma0 (x : Nat) : Nat := rotr 2 x ^^^ rotr 13 x ^^^ rotr 22 x

/-- SHA-256 big sigma 1. -/
def bigSigma1 (x : Nat) : Nat := rotr 6 x ^^^ rotr 11 x ^^^ rotr 25 x

/-- SHA-256 small sigma 0. -/
def smallSigma0 (x : Nat) : Nat := rotr 7 x ^^^ rotr 18 x ^^^ (x >>> 3)

/-- SHA-256 small sigma 1. -/
def smallSigma1 (x : Nat) : Nat := rotr 17 x ^^^ rotr 19 x ^^^ (x >>> 10)

/-- Trial-division primality test, to list the primes FIPS 180-4 derives the
SHA-256 constants from. -/
def isPrimeTrial (n : Nat) : Bool :=
  2 ≤ n && ((List.range n).all fun d => d < 2 || n % d != 0)

/-- The first 64 primes (2 through 311). -/
def sha2Primes : List Nat := ((List.range 400).filter isPrimeTrial).take 64

/-- Binary search for the greatest `m` with `f m ≤ n`, for monotone `f`;
the fuel bounds the number of halvings of the interval. -/
def rootBelowAux (f : Nat → Nat) : Nat → Nat → Nat → Nat → Nat
  | 0, lo, _, _ => lo
  | fuel + 1, lo, hi, n =>
      if hi ≤ lo + 1 then lo
      else
        let mid := (lo + hi) / 2
        if f mid ≤ n then rootBelowAux f fuel mid hi n else rootBelowAux f fuel lo mid n

/-- Greatest `m` with `f m ≤ n` for monotone `f` with `f 0 = 0`. -/
def rootBelow (f : Nat → Nat) (n : Nat) : Nat := rootBelowAux f 200 0 (n + 1) n

/-- SHA-256 round constants (FIPS 180-4 §4.2.2): the first 32 bits of the
fractional parts of the cube roots of the first 64 primes, i.e. the
integer cube root of `p * 2^96` reduced mod 2^32. -/
def sha256K : List Nat :=
  sha2Primes.map fun p => rootBelow (fun m => m * m * m) (p <<< 96) % 4294967296

/-- SHA-256 initial hash words (FIPS 180-4 §5.3.3): the first 32 bits of the
fractional parts of the square roots of the first 8 primes. -/
def sha256InitWords : List Nat :=
  (sha2Primes.take 8).map fun p => rootBelow (fun m => m * m) (p <<< 64) % 4294967296

/-- SHA-256 working state: eight 32-bit words. -/
structure Sha256State where
  a : Nat
  b : Nat
  c : Nat
  d : Nat
  e : Nat
  f : Nat
  g : Nat
  h : Nat
  deriving DecidableEq

/-- SHA-256 initial hash value. -/
def sha256Init : Sha256State :=
  { a := sha256InitWords.getD 0 0, b := sha256InitWords.getD 1 0,
    c := sha256InitWords.getD 2 0, d := sha256InitWords.getD 3 0,
    e := sha256InitWords.getD 4 0, f := sha256InitWords.getD 5 0,
    g := sha256InitWords.getD 6 0, h := sha256InitWords.getD 7 0 }

/-- Big-endian 8-byte encoding of a natural number (the length field of the
SHA-256 padding). -/
def be64 (n : Nat) : List Nat :=
  [(n >>> 56) % 256, (n >>> 48) % 256, (n >>> 40) % 256, (n >>> 32) % 256,
   (n >>> 24) % 256, (n >>> 16) % 256, (n >>> 8) % 256, n % 256]

/-- Big-endian 4-byte encoding of a 32-bit word. -/
def be32 (n : Nat) : List Nat :=
  [(n >>> 24) % 256, (n >>> 16) % 256, (n >>> 8) % 256, n % 256]

/-- SHA-256 message padding: append `0x80`, zero bytes up to 56 mod 64, then
the 8-byte big-endian bit length. -/
def sha256Pad (msg : List Nat) : List Nat :=
  let z := (120 - ((msg.length + 1) % 64)) % 64
  msg ++ [0x80] ++ List.replicate z 0 ++ be64 (8 * msg.length)

/-- Split a byte list into 64-byte blocks; the fuel only bounds the number of
blocks so that the recursion is structural (`rest.drop 63` is
`(x :: rest).drop 64`). -/
def toBlocksAux : Nat → List Nat → List (List Nat)
  | 0, _ => []
  | _, [] => []
  | fuel + 1, x :: rest => ((x :: rest).take 64) :: toBlocksAux fuel (rest.drop 63)

/-- Split a byte list into 64-byte blocks. -/
def toBlocks (l : List Nat) : List (List Nat) := toBlocksAux (l.length + 1) l

/-- Pack a byte list into big-endian 32-bit words (4 bytes per word). -/
def toWords : List Nat → List Nat
  | a :: b :: c :: d :: rest =>
      ((((a % 256) * 256 + b % 256) * 256 + c % 256) * 256 + d % 256) :: toWords rest
  | _ => []

/-- Extend the 16-word block schedule by `n` further words. -/
def extendSchedule : List Nat → Nat → List Nat
  | ws, 0 => ws
  | ws, n + 1 =>
      let t := ws.length
      let w := w32 (smallSigma1 (ws.getD (t - 2) 0) + ws.getD (t - 7) 0 +
                    smallSigma0 (ws.getD (t - 15) 0) + ws.getD (t - 16) 0)
      extendSchedule (ws ++ [w]) n

/-- One SHA-256 compression round. -/
def sha256Round (s : Sha256State) (k w : Nat) : Sha256State :=
  let t1 := w32 (s.h + bigSigma1 s.e + ch s.e s.f s.g + k + w)
  let t2 := w32 (bigSigma0 s.a + maj s.a s.b s.c)
  { a := w32 (t1 + t2), b := s.a, c := s.b, d := s.c,
    e := w32 (s.d + t1), f := s.e, g := s.f, h := s.g }

/-- Process one 64-byte block: run 64 rounds and add the result into the
chaining state. -/
def sha256Block (st : Sha256State) (block : List Nat) : Sha256State :=
  let ws := extendSchedule (toWords block) 48
  let r := (sha256K.zip ws).foldl (fun s kw => sha256Round s kw.1 kw.2) st
  { a := w32 (st.a + r.a), b := w32 (st.b + r.b), c := w32 (st.c + r.c),
    d := w32 (st.d + r.d), e := w32 (st.e + r.e), f := w32 (st.f + r.f),
    g := w32 (st.g + r.g), h := w32 (st.h + r.h) }

/-- SHA-256 digest of a byte list, as the 32-byte digest value. -/
def sha256Bytes (msg : List Nat) : List Nat :=
  let fin := (toBlocks (sha256Pad msg)).foldl sha256Block sha256Init
  be32 fin.a ++ be32 fin.b ++ be32 fin.c ++ be32 fin.d ++
  be32 fin.e ++ be32 fin.f ++ be32 fin.g ++ be32 fin.h

/-- Lowercase hex digit for a value below 16. -/
def hexChar (n : Nat) : Char := if n < 10 then Char.ofNat (48 + n) else Char.ofNat (87 + n)

/-- Two lowercase hex digits of one byte. -/
def byteToHex (b : Nat) : List Char := [hexChar (b / 16), hexChar (b % 16)]

/-- Lowercase hex encoding of a byte list. -/
def bytesToHex (bs : List Nat) : String := String.mk ((bs.map byteToHex).flatten)

/-- Lowercase hex SHA-256 digest of a byte list, as `hashlib`'s `hexdigest`
returns it. -/
def sha256hex (msg : List Nat) : String := bytesToHex (sha256Bytes msg)

/-! Python values, dictionaries and errors.  Dictionaries are association
lists; `dictInsert` replaces in place on key collision and appends new keys
at the end, matching CPython's insertion-ordered dict semantics. -/

/-- A Python value, as far as the client manipulates them. -/
inductive PyVal where
  | pyNone
  | str (s : String)
  | int (n : Nat)
  deriving DecidableEq

/-- Insert-or-replace into an insertion-ordered dictionary. -/
def dictInsert {α β : Type} [DecidableEq α] (k : α) (v : β) : List (α × β) → List (α × β)
  | [] => [(k, v)]
  | (k', v') :: rest => if k' = k then (k, v) :: rest else (k', v') :: dictInsert k v rest

/-- Dictionary lookup. -/
def dictLookup {α β : Type} [DecidableEq α] (k : α) : List (α × β) → Option β
  | [] => Option.none
  | (k', v') :: rest => if k' = k then some v' else dictLookup k rest

/-- A string-keyed Python dictionary (object attributes, headers, ...). -/
abbrev PyDict : Type := List (String × PyVal)

deriving instance DecidableEq for Except

/-- A Python exception as the client raises them.  `lfsError` embeds
`exc.LfsError`; modelled from the spec: module `exc` is absent from the
sources, and the spec describes it as a protocol error carrying the HTTP
status code. -/
inductive PyErr where
  | valueError (msg : String)
  | lfsError (msg : String) (statusCode : Nat)
  | ioError
  | indexError
  deriving DecidableEq

/-! Byte streams.  A `ByteStream` is the state of a seekable binary file
object: its full content, the current read position, and a test-harness
fault injector - `failAfter = some k` makes the `k`-th next read raise. -/

/-- State of a seekable binary stream. -/
structure ByteStream where
  content : List Nat
  pos : Nat
  failAfter : Option Nat
  deriving DecidableEq

/-- `FILE_READ_BUFFER_SIZE = 4 * 1024 * 1000` from `client.py`. -/
def FILE_READ_BUFFER_SIZE : Nat := 4 * 1024 * 1000

/-- `file_obj.read(n)`: return up to `n` bytes from the current position and
advance it; raises when the fault injector fires. -/
def streamRead (s : ByteStream) (n : Nat) : Except ByteStream (List Nat × ByteStream) :=
  if s.failAfter = some 0 then .error s
  else
    let data := (s.content.drop s.pos).take n
    .ok (data, { s with pos := s.pos + data.length, failAfter := s.failAfter.map (· - 1) })

/-- `file_obj.tell()`. -/
def streamTell (s : ByteStream) : Nat := s.pos

/-- `file_obj.seek(p)`. -/
def streamSeek (s : ByteStream) (p : Nat) : ByteStream := { s with pos := p }

/-! `LfsClient._get_object_attrs`: read the stream to exhaustion in
`FILE_READ_BUFFER_SIZE` chunks feeding a SHA-256 digest, take `size` from
`tell()`, and reset the stream in a `finally` block.  The incremental
`hashlib` digest is modelled by the list of bytes fed so far; `hexdigest()`
is `sha256hex` of that list.  The fuel argument only makes the `while True`
loop structurally recursive; `content.length - pos + 1` always suffices,
since every iteration either ends the loop or consumes at least one byte. -/

/-- The `while True` read loop of `_get_object_attrs`, carrying the bytes fed
to the digest so far. -/
def hashLoop (digest : List Nat) (s : ByteStream) : Nat → Except ByteStream (List Nat × ByteStream)
  | 0 => .error s
  | fuel + 1 =>
      match streamRead s FILE_READ_BUFFER_SIZE with
      | .error s' => .error s'
      | .ok (data, s') =>
          if data.isEmpty then .ok (digest, s') else hashLoop (digest ++ data) s' fuel

/-- Modelled from the spec: `types.ObjectAttributes` (module `types` is absent
from the sources) is the object-attribute dictionary with an `oid` digest
field and a `size` byte-count field. -/
def objectAttributes (oid : String) (size : Nat) : PyDict :=
  [("oid", PyVal.str oid), ("size", PyVal.int size)]

/-- `LfsClient._get_object_attrs`: on success, the attributes and the stream
after the `finally` reset; on a read error, the stream after the reset
(the exception propagates). -/
def get_object_attrs (s : ByteStream) : Except ByteStream (PyDict × ByteStream) :=
  match hashLoop [] s (s.content.length - s.pos + 1) with
  | .error s' => .error (streamSeek s' 0)
  | .ok (buf, s') =>
      let size := streamTell s'
      let oid := sha256hex buf
      .ok (objectAttributes oid size, streamSeek s' 0)

/-! Base64, embedding the `base64.b64encode` collaborator used by
`LfsClient._add_auth`. -/

/-- Character of one 6-bit base64 group. -/
def b64char (n : Nat) : Char :=
  if n < 26 then Char.ofNat (65 + n)
  else if n < 52 then Char.ofNat (97 + (n - 26))
  else if n < 62 then Char.ofNat (48 + (n - 52))
  else if n = 62 then Char.ofNat 43 else Char.ofNat 47

/-- Base64 character stream of a byte list, with `=` padding. -/
def b64chars : List Nat → List Char
  | [] => []
  | [a] => [b64char (a / 4), b64char ((a % 4) * 16), '=', '=']
  | [a, b] => [b64char (a / 4), b64char ((a % 4) * 16 + b / 16), b64char ((b % 16) * 4), '=']
  | a :: b :: c :: rest =>
      b64char (a / 4) :: b64char ((a % 4) * 16 + b / 16) ::
      b64char ((b % 16) * 4 + c / 64) :: b64char (c % 64) :: b64chars rest

/-- `base64.b64encode` on a byte list, as a string. -/
def b64encode (bs : List Nat) : String := String.mk (b64chars bs)

/-- `str.encode('ascii')`: the code points of an ASCII string. -/
def asciiBytes (s : String) : List Nat := s.toList.map Char.toNat

/-- `str.rstrip('/')`. -/
def pyRstripSlash (s : String) : String :=
  String.mk ((s.toList.reverse.dropWhile (fun c => c = '/')).reverse)

/-! The `LfsClient` class.  HTTP is modelled by passing the environment in:
`batch`/`upload`/`download` take a `server` function from the request the
client actually sends to the response it receives. -/

/-- `LfsClient.LFS_MIME_TYPE`. -/
def LFS_MIME_TYPE : String := "application/vnd.git-lfs+json"

/-- Modelled from the spec: the two adapter classes of the `transfer` module
(absent from the sources) named by `LfsClient.TRANSFER_ADAPTERS`. -/
inductive TransferAdapterClass where
  | basicTransferAdapter
  | multipartTransferAdapter
  deriving DecidableEq

/-- `LfsClient.TRANSFER_ADAPTERS`: the name-to-class adapter registry. -/
def TRANSFER_ADAPTERS : List (String × TransferAdapterClass) :=
  [("basic", .basicTransferAdapter), ("multipart-basic", .multipartTransferAdapter)]

/-- `LfsClient.TRANSFER_ADAPTER_PRIORITY`, the default `transfer_adapters`
constructor argument. -/
def TRANSFER_ADAPTER_PRIORITY : List String := ["multipart-basic", "basic"]

/-- A constructed `LfsClient` instance. -/
structure LfsClient where
  url : String
  authToken : Option String
  basicAuth : Option (String × String)
  transferAdapters : List String
  deriving DecidableEq

/-- `LfsClient.__init__`: strip trailing slashes from the server URL and
reject supplying both auth forms. -/
def LfsClient.init (lfs_server_url : String) (auth_token : Option String)
    (basic_auth : Option (String × String)) (transfer_adapters : List String) :
    Except PyErr LfsClient :=
  if auth_token.isSome && basic_auth.isSome then
    .error (.valueError
      "Only either an auth token or basic auth credentials can be supplied, but not both.")
  else
    .ok { url := pyRstripSlash lfs_server_url, authToken := auth_token,
          basicAuth := basic_auth, transferAdapters := transfer_adapters }

/-- `LfsClient._add_auth`: the Python code tests truthiness, so an empty
token string adds nothing, while a credentials pair (a nonempty tuple) is
always truthy. -/
def LfsClient.add_auth (c : LfsClient) (headers : PyDict) : PyDict :=
  let h1 := match c.authToken with
    | some t => if t = "" then headers else dictInsert "Authorization" (.str ("Bearer " ++ t)) headers
    | Option.none => headers
  match c.basicAuth with
  | some (user, pw) =>
      dictInsert "Authorization"
        (.str ("Basic " ++ b64encode (asciiBytes (user ++ ":" ++ pw)))) h1
  | Option.none => h1

/-- `LfsClient._url_for` (no query parameters are ever passed to it in the
source): join the segments with `/` after the stripped base URL. -/
def LfsClient.url_for (c : LfsClient) (segments : List String) : String :=
  c.url ++ "/" ++ String.intercalate "/" segments

/-- The serialized batch request body (`payload` in `LfsClient.batch`);
`ref` is included only when truthy, so an empty string is omitted. -/
structure BatchRequest where
  transfers : List String
  operation : String
  objects : List PyDict
  ref : Option String
  deriving DecidableEq

/-- The batch payload construction of `LfsClient.batch`. -/
def LfsClient.batchPayload (c : LfsClient) (operation : String) (objects : List PyDict)
    (ref : Option String) (transfers : Option (List String)) : BatchRequest :=
  { transfers := match transfers with
      | Option.none => c.transferAdapters
      | some ts => ts,
    operation := operation,
    objects := objects,
    ref := match ref with
      | some r => if r = "" then Option.none else some r
      | Option.none => Option.none }

/-- The POST request `LfsClient.batch` sends. -/
structure HttpRequest where
  url : String
  payload : BatchRequest
  headers : PyDict
  deriving DecidableEq

/-- The headers dict built in `LfsClient.batch` before `_add_auth`. -/
def batchBaseHeaders : PyDict :=
  [("Content-type", PyVal.str LFS_MIME_TYPE), ("Accept", PyVal.str LFS_MIME_TYPE)]

/-- Request construction of `LfsClient.batch`: URL (with optional prefix
segment), JSON payload, and authenticated headers. -/
def LfsClient.batchRequest (c : LfsClient) (pfx : Option String) (operation : String)
    (objects : List PyDict) (ref : Option String) (transfers : Option (List String)) :
    HttpRequest :=
  { url := match pfx with
      | some p => c.url_for [p, "objects", "batch"]
      | Option.none => c.url_for ["objects", "batch"],
    payload := c.batchPayload operation objects ref transfers,
    headers := c.add_auth batchBaseHeaders }

/-- The parsed JSON body of a batch response, with the fields the client
reads. -/
structure BatchResponseJson where
  transfer : String
  objects : List PyDict
  deriving DecidableEq

/-- An HTTP response from the LFS server. -/
structure HttpResponse where
  statusCode : Nat
  body : BatchResponseJson
  deriving DecidableEq

/-- `LfsClient.batch`: send the constructed request and fail with
`exc.LfsError` carrying the status code on any non-200 response. -/
def LfsClient.batch (c : LfsClient) (pfx : Option String) (operation : String)
    (objects : List PyDict) (ref : Option String) (transfers : Option (List String))
    (server : HttpRequest → HttpResponse) : Except PyErr BatchResponseJson :=
  let response := server (c.batchRequest pfx operation objects ref transfers)
  if response.statusCode ≠ 200 then
    .error (.lfsError ("Unexpected response from LFS server: " ++ toString response.statusCode)
      response.statusCode)
  else .ok response.body

/-- `LfsClient._add_extra_object_attributes`: each extra key `k` is stored
under `x-k`. -/
def add_extra_object_attributes (attributes : PyDict) (extras : List (String × PyVal)) :
    PyDict :=
  extras.foldl (fun a kv => dictInsert ("x-" ++ kv.1) kv.2 a) attributes

/-- `str(organization)` / `str(repo)` as `'{}/{}'.format` renders them:
`None` becomes the literal text `None`. -/
def formatNoneStr : Option String → String
  | some s => s
  | Option.none => "None"

/-- The URL prefix computation shared by `upload` and `download`. -/
def prefixOrgRepo (organization repo : Option String) : Option String :=
  if organization.isSome || repo.isSome then
    some (formatNoneStr organization ++ "/" ++ formatNoneStr repo)
  else Option.none

/-- Record of the one adapter call `upload`/`download` makes: which
registered class was instantiated, which method ran, and the action
descriptor passed to it. -/
structure AdapterInvocation where
  adapterClass : TransferAdapterClass
  method : String
  descriptor : PyDict
  deriving DecidableEq

/-- `LfsClient.upload`: compute object attributes, merge extras, negotiate
via `batch`, dispatch on the response's `transfer` name through
`TRANSFER_ADAPTERS` (an unknown name raises `ValueError`), call the
adapter's `upload` with `response['objects'][0]`, and return the
attributes. -/
def LfsClient.upload (c : LfsClient) (file_obj : ByteStream)
    (organization repo : Option String) (extras : List (String × PyVal))
    (server : HttpRequest → HttpResponse) : Except PyErr (PyDict × AdapterInvocation) :=
  match get_object_attrs file_obj with
  | .error _ => .error .ioError
  | .ok (attrs0, _) =>
      let object_attrs := add_extra_object_attributes attrs0 extras
      let pfx := prefixOrgRepo organization repo
      match c.batch pfx "upload" [object_attrs] Option.none Option.none server with
      | .error e => .error e
      | .ok respBody =>
          match dictLookup respBody.transfer TRANSFER_ADAPTERS with
          | Option.none =>
              .error (.valueError ("Unsupported transfer adapter: " ++ respBody.transfer))
          | some cls =>
              match respBody.objects with
              | [] => .error .indexError
              | descr :: _ => .ok (object_attrs, ⟨cls, "upload", descr⟩)

/-- `LfsClient.download`: build attributes from the caller's oid/size, merge
extras, negotiate via `batch`, and dispatch exactly as `upload` does but
calling the adapter's `download`. -/
def LfsClient.download (c : LfsClient) (object_sha256 : String) (object_size : Nat)
    (organization repo : Option String) (extras : List (String × PyVal))
    (server : HttpRequest → HttpResponse) : Except PyErr AdapterInvocation :=
  let object_attrs := add_extra_object_attributes
    [("oid", PyVal.str object_sha256), ("size", PyVal.int object_size)] extras
  let pfx := prefixOrgRepo organization repo
  match c.batch pfx "download" [object_attrs] Option.none Option.none server with
  | .error e => .error e
  | .ok respBody =>
      match dictLookup respBody.transfer TRANSFER_ADAPTERS with
      | Option.none =>
          .error (.valueError ("Unsupported transfer adapter: " ++ respBody.transfer))
      | some cls =>
          match respBody.objects with
          | [] => .error .indexError
          | descr :: _ => .ok ⟨cls, "download", descr⟩

/-! `LfsClient.list_locks`.  The source builds the `params` dict as
`{path: path, id: id, cursor: cursor, limit: limit, refspec: refspec}` -
using the parameter *values* as the keys.  A Python dict literal inserts
left to right with collision replacing, and `requests` omits entries whose
value is `None`. -/

/-- A Python dict literal: left-to-right insertion. -/
def pyDictLit {α β : Type} [DecidableEq α] (items : List (α × β)) : List (α × β) :=
  items.foldl (fun d kv => dictInsert kv.1 kv.2 d) []

/-- The `params` dict as `list_locks` builds it (values as keys). -/
def list_locks_params (path id cursor limit refspec : PyVal) : List (PyVal × PyVal) :=
  pyDictLit [(path, path), (id, id), (cursor, cursor), (limit, limit), (refspec, refspec)]

/-- What `requests.get` actually sends: entries with value `None` dropped. -/
def sentParams (params : List (PyVal × PyVal)) : List (PyVal × PyVal) :=
  params.filter (fun kv => kv.2 != PyVal.pyNone)

/-- `LfsClient.list_locks` up to the HTTP exchange: the GET target and the
query entries sent. -/
def LfsClient.list_locks (c : LfsClient) (path id cursor limit refspec : PyVal) :
    String × List (PyVal × PyVal) :=
  (c.url_for ["/list"], sentParams (list_locks_params path id cursor limit refspec))

/-- Modelled from the spec: the intended lock-list query of the claim -
parameter *names* as keys, parameters whose value is absent omitted. -/
def list_locks_params_spec (path id cursor limit refspec : PyVal) : List (String × PyVal) :=
  ([("path", path), ("id", id), ("cursor", cursor), ("limit", limit),
    ("refspec", refspec)]).filter (fun kv => kv.2 != PyVal.pyNone)

/-- Read position of the stream carried by a `get_object_attrs` result, on
either exit path. -/
def resultPos : Except ByteStream (PyDict × ByteStream) → Nat
  | .error s => s.pos
  | .ok (_, s) => s.pos

/-! Helper lemmas. -/

/-- Splitting a list at the length of a `take`. -/
theorem take_len_append_drop {α : Type} (l : List α) (n : Nat) :
    l.take n ++ l.drop ((l.take n).length) = l := by
  rcases le_total n l.length with h | h
  · rw [List.length_take, min_eq_left h, List.take_append_drop]
  · rw [List.take_of_length_le h, List.drop_length, List.append_nil]

/-- The read loop on a non-faulting stream consumes the rest of the content
and feeds exactly those bytes to the digest, with any sufficient fuel. -/
theorem hashLoop_ok (fuel : Nat) : ∀ (s : ByteStream) (acc : List Nat),
    s.failAfter = Option.none → s.pos ≤ s.content.length →
    s.content.length - s.pos < fuel →
    hashLoop acc s fuel =
      .ok (acc ++ s.content.drop s.pos,
           ⟨s.content, s.content.length, Option.none⟩) := by
  induction fuel with
  | zero => intro s acc _ _ h; omega
  | succ fuel ih =>
      intro s acc hfa hple hlt
      obtain ⟨content, pos, fa⟩ := s
      have hfa' : fa = Option.none := hfa
      subst hfa'
      have hple' : pos ≤ content.length := hple
      have hlt' : content.length - pos < fuel + 1 := hlt
      have hread : streamRead ⟨content, pos, Option.none⟩ FILE_READ_BUFFER_SIZE =
          .ok ((content.drop pos).take FILE_READ_BUFFER_SIZE,
               ⟨content, pos + ((content.drop pos).take FILE_READ_BUFFER_SIZE).length,
                Option.none⟩) := by
        simp [streamRead]
      by_cases hend : content.length ≤ pos
      · have hdrop : content.drop pos = [] := List.drop_eq_nil_of_le hend
        have hpos : pos = content.length := le_antisymm hple' hend
        rw [hashLoop, hread, hdrop]
        simp [hpos]
      · push_neg at hend
        have hdropne : content.drop pos ≠ [] := by
          intro hnil
          have := congrArg List.length hnil
          simp at this
          omega
        set data := (content.drop pos).take FILE_READ_BUFFER_SIZE with hdata
        have hdatane : data ≠ [] := by
          rw [hdata]
          intro hnil
          rcases List.take_eq_nil_iff.mp hnil with h | h
          · exact absurd h (by rw [FILE_READ_BUFFER_SIZE]; omega)
          · exact hdropne h
        have hdlen : data.length ≤ content.length - pos := by
          rw [hdata, List.length_take, List.length_drop]
          omega
        have hdpos : 0 < data.length := List.length_pos.mpr hdatane
        rw [hashLoop, hread]
        dsimp only
        rw [if_neg (by simpa [List.isEmpty_iff] using hdatane)]
        rw [ih ⟨content, pos + data.length, Option.none⟩ (acc ++ data) rfl
          (by simpa using by omega) (by simpa using by omega)]
        have harr : (acc ++ data) ++ content.drop (pos + data.length) =
            acc ++ content.drop pos := by
          rw [List.append_assoc]
          congr 1
          have hdd : content.drop (pos + data.length) =
              (content.drop pos).drop data.length := by
            rw [List.drop_drop]
          rw [hdd, hdata]
          exact take_len_append_drop (content.drop pos) FILE_READ_BUFFER_SIZE
        rw [harr]

/-- `_get_object_attrs` on a fresh non-faulting stream: the exact attribute
dict and the reset stream. -/
theorem get_object_attrs_clean (content : List Nat) :
    get_object_attrs ⟨content, 0, Option.none⟩ =
      .ok (objectAttributes (sha256hex content) content.length,
           ⟨content, 0, Option.none⟩) := by
  rw [get_object_attrs]
  rw [hashLoop_ok (content.length - 0 + 1) ⟨content, 0, Option.none⟩ [] rfl
    (by dsimp only; omega) (by dsimp only; omega)]
  simp [streamTell, streamSeek]

/-! The claims. -/

/-- Claim C1: for every byte stream read from its start, `_get_object_attrs`
returns attributes whose `size` is the exact byte length of the stream and
whose `oid` is the lowercase hex SHA-256 digest of its full content; in
particular, the empty stream yields size 0 and the well-known empty-input
digest. -/
theorem c1_identity_size_and_oid (content : List Nat) :
    get_object_attrs ⟨content, 0, Option.none⟩ =
      .ok (objectAttributes (sha256hex content) content.length,
           ⟨content, 0, Option.none⟩) ∧
    sha256hex [] = "e3b0c44298fc1c149afbf4c8996fb92427ae41e4649b934ca495991b7852b855" ∧
    get_object_attrs ⟨[], 0, Option.none⟩ =
      .ok (objectAttributes
             "e3b0c44298fc1c149afbf4c8996fb92427ae41e4649b934ca495991b7852b855" 0,
           ⟨[], 0, Option.none⟩) :=
  ⟨get_object_attrs_clean content, by decide, by decide⟩

/-- Claim C2: `_get_object_attrs` leaves the stream's read position at 0 on
every exit path - after a successful read-through and after a propagated
read error alike; the second conjunct exhibits a concrete mid-stream read
failure whose propagated state is nevertheless reset to position 0. -/
theorem c2_stream_reset_on_all_paths (s : ByteStream) :
    resultPos (get_object_attrs s) = 0 ∧
    get_object_attrs ⟨[1, 2, 3], 0, some 1⟩ = .error ⟨[1, 2, 3], 0, some 0⟩ := by
  constructor
  · rw [get_object_attrs]
    cases hashLoop [] s (s.content.length - s.pos + 1) with
    | error s' => rfl
    | ok p =>
        obtain ⟨buf, s'⟩ := p
        rfl
  · decide

/-- Claim C3 (code defect): calling `list_locks` with `path = "foo"` and all
other parameters `None` sends the query keyed by the parameter *value*
(`foo=foo`, the `None`-keyed entry being dropped by `requests`) to
`{server}//list` - not the name-keyed query `path=foo` to `{server}/list`
that the claim describes, which the spec-modelled intended behavior
produces. -/
theorem c3_list_locks_params_keyed_by_values :
    LfsClient.list_locks
        ⟨"http://lfs", Option.none, Option.none, TRANSFER_ADAPTER_PRIORITY⟩
        (.str "foo") .pyNone .pyNone .pyNone .pyNone =
      ("http://lfs//list", [(.str "foo", .str "foo")]) ∧
    list_locks_params_spec (.str "foo") .pyNone .pyNone .pyNone .pyNone =
      [("path", .str "foo")] := by
  decide

/-- Claim C4: every non-200 batch response makes `batch` raise `LfsError`
carrying exactly that status code; `upload` and `download` fail with the
same error, return no result, and invoke no adapter (the success type is
the only carrier of an `AdapterInvocation`). -/
theorem c4_batch_non200_protocol_error (c : LfsClient) (pfx : Option String)
    (operation : String) (objects : List PyDict) (ref : Option String)
    (transfers : Option (List String)) (content : List Nat)
    (organization repo : Option String) (extras : List (String × PyVal))
    (oid : String) (sz : Nat) (server : HttpRequest → HttpResponse) (st : Nat)
    (hst : st ≠ 200) (hserver : ∀ req, (server req).statusCode = st) :
    c.batch pfx operation objects ref transfers server =
      .error (.lfsError ("Unexpected response from LFS server: " ++ toString st) st) ∧
    c.upload ⟨content, 0, Option.none⟩ organization repo extras server =
      .error (.lfsError ("Unexpected response from LFS server: " ++ toString st) st) ∧
    c.download oid sz organization repo extras server =
      .error (.lfsError ("Unexpected response from LFS server: " ++ toString st) st) := by
  have hbatch : ∀ (p : Option String) (op : String) (objs : List PyDict)
      (r : Option String) (ts : Option (List String)),
      c.batch p op objs r ts server =
        .error (.lfsError ("Unexpected response from LFS server: " ++ toString st) st) := by
    intro p op objs r ts
    simp only [LfsClient.batch, hserver]
    rw [if_pos hst]
  refine ⟨hbatch _ _ _ _ _, ?_, ?_⟩
  · rw [LfsClient.upload, get_object_attrs_clean]
    dsimp only
    rw [hbatch]
  · rw [LfsClient.download, hbatch]

/-- Witness for C4: a server answering 500 makes `batch`, `upload` and
`download` on a concrete client all fail with `LfsError` status 500. -/
theorem c4_batch_non200_protocol_error_witness :
    (500 : Nat) ≠ 200 ∧
    ((⟨"http://lfs", Option.none, Option.none, TRANSFER_ADAPTER_PRIORITY⟩ : LfsClient).batch
        Option.none "upload" [] Option.none Option.none (fun _ => ⟨500, "basic", []⟩) =
      .error (.lfsError "Unexpected response from LFS server: 500" 500)) ∧
    ((⟨"http://lfs", Option.none, Option.none, TRANSFER_ADAPTER_PRIORITY⟩ : LfsClient).upload
        ⟨[1, 2], 0, Option.none⟩ Option.none Option.none [] (fun _ => ⟨500, "basic", []⟩) =
      .error (.lfsError "Unexpected response from LFS server: 500" 500)) ∧
    ((⟨"http://lfs", Option.none, Option.none, TRANSFER_ADAPTER_PRIORITY⟩ : LfsClient).download
        "ab" 2 Option.none Option.none [] (fun _ => ⟨500, "basic", []⟩) =
      .error (.lfsError "Unexpected response from LFS server: 500" 500)) := by
  have h := c4_batch_non200_protocol_error
    ⟨"http://lfs", Option.none, Option.none, TRANSFER_ADAPTER_PRIORITY⟩
    Option.none "upload" [] Option.none Option.none [1, 2] Option.none Option.none []
    "ab" 2 (fun _ => ⟨500, "basic", []⟩) 500 (by decide) (fun _ => rfl)
  exact ⟨by decide, h.1, h.2.1, h.2.2⟩

/-- Claim C6: supplying both an auth token and basic credentials makes the
constructor raise `ValueError` (construction involves no network exchange:
`LfsClient.init` is a pure function of its arguments), while supplying at
most one of the two yields a constructed client. -/
theorem c6_init_rejects_both_auth_forms (url tok user pw : String) (ta : List String)
    (auth_token : Option String) (basic_auth : Option (String × String))
    (hone : auth_token = Option.none ∨ basic_auth = Option.none) :
    LfsClient.init url (some tok) (some (user, pw)) ta =
      .error (.valueError
        "Only either an auth token or basic auth credentials can be supplied, but not both.") ∧
    LfsClient.init url auth_token basic_auth ta =
      .ok ⟨pyRstripSlash url, auth_token, basic_auth, ta⟩ := by
  constructor
  · rfl
  · rcases hone with h | h <;> subst h <;> simp [LfsClient.init]

/-- Witness for C6: a token-only construction succeeds while the two-form
construction fails, at concrete arguments. -/
theorem c6_init_rejects_both_auth_forms_witness :
    ((some "tok" : Option String) = Option.none ∨
      (Option.none : Option (String × String)) = Option.none) ∧
    LfsClient.init "http://lfs/" (some "tok") Option.none ["basic"] =
      .ok ⟨"http://lfs", some "tok", Option.none, ["basic"]⟩ ∧
    LfsClient.init "http://lfs/" (some "t") (some ("u", "p")) ["basic"] =
      .error (.valueError
        "Only either an auth token or basic auth credentials can be supplied, but not both.") := by
  have h := c6_init_rejects_both_auth_forms "http://lfs/" "t" "u" "p" ["basic"]
    (some "tok") Option.none (Or.inr rfl)
  exact ⟨Or.inr rfl, h.2, h.1⟩

/-- Claim C5: with a 200 batch response, a `transfer` name absent from
`TRANSFER_ADAPTERS` makes both `upload` and `download` raise `ValueError` -
no fallback, no adapter invocation (the success type is the only carrier of
one); a registered name dispatches to exactly the matching adapter class,
whose `upload`/`download` method receives the first returned object
descriptor. -/
theorem c5_adapter_dispatch (c : LfsClient) (content : List Nat)
    (organization repo : Option String) (extras : List (String × PyVal))
    (oid : String) (sz : Nat) (body : BatchResponseJson) (descr : PyDict)
    (rest : List PyDict) (server : HttpRequest → HttpResponse)
    (hserver : ∀ req, server req = ⟨200, body⟩) (hobjs : body.objects = descr :: rest) :
    (dictLookup body.transfer TRANSFER_ADAPTERS = Option.none →
      c.upload ⟨content, 0, Option.none⟩ organization repo extras server =
        .error (.valueError ("Unsupported transfer adapter: " ++ body.transfer)) ∧
      c.download oid sz organization repo extras server =
        .error (.valueError ("Unsupported transfer adapter: " ++ body.transfer))) ∧
    (∀ cls, dictLookup body.transfer TRANSFER_ADAPTERS = some cls →
      c.upload ⟨content, 0, Option.none⟩ organization repo extras server =
        .ok (add_extra_object_attributes
               (objectAttributes (sha256hex content) content.length) extras,
             ⟨cls, "upload", descr⟩) ∧
      c.download oid sz organization repo extras server =
        .ok ⟨cls, "download", descr⟩) := by
  have hbatch : ∀ (p : Option String) (op : String) (objs : List PyDict)
      (r : Option String) (ts : Option (List String)),
      c.batch p op objs r ts server = .ok body := by
    intro p op objs r ts
    rw [LfsClient.batch, hserver]
    rfl
  constructor
  · intro hnone
    constructor
    · rw [LfsClient.upload, get_object_attrs_clean]
      dsimp only
      rw [hbatch]
      dsimp only
      rw [hnone]
    · rw [LfsClient.download, hbatch]
      dsimp only
      rw [hnone]
  · intro cls hcls
    constructor
    · rw [LfsClient.upload, get_object_attrs_clean]
      dsimp only
      rw [hbatch]
      dsimp only
      rw [hcls, hobjs]
    · rw [LfsClient.download, hbatch]
      dsimp only
      rw [hcls, hobjs]

/-- Witness for C5, applying the dispatch theorem twice: a response naming
the unregistered adapter `unknown` fails both operations with `ValueError`,
and one naming `basic` yields an invocation of the Basic adapter class with
the returned action descriptor. -/
theorem c5_adapter_dispatch_witness :
    ((⟨"http://lfs", Option.none, Option.none, TRANSFER_ADAPTER_PRIORITY⟩ : LfsClient).upload
        ⟨[1], 0, Option.none⟩ Option.none Option.none []
        (fun _ => ⟨200, "unknown", [[("href", PyVal.str "u")]]⟩) =
      .error (.valueError "Unsupported transfer adapter: unknown")) ∧
    ((⟨"http://lfs", Option.none, Option.none, TRANSFER_ADAPTER_PRIORITY⟩ : LfsClient).download
        "ab" 2 Option.none Option.none []
        (fun _ => ⟨200, "unknown", [[("href", PyVal.str "u")]]⟩) =
      .error (.valueError "Unsupported transfer adapter: unknown")) ∧
    ((⟨"http://lfs", Option.none, Option.none, TRANSFER_ADAPTER_PRIORITY⟩ : LfsClient).upload
        ⟨[1], 0, Option.none⟩ Option.none Option.none []
        (fun _ => ⟨200, "basic", [[("href", PyVal.str "u")]]⟩) =
      .ok ([("oid", PyVal.str "4bf5122f344554c53bde2ebb8cd2b7e3d1600ad631c385a5d7cce23c7785459a"),
            ("size", PyVal.int 1)],
           ⟨.basicTransferAdapter, "upload", [("href", PyVal.str "u")]⟩)) ∧
    ((⟨"http://lfs", Option.none, Option.none, TRANSFER_ADAPTER_PRIORITY⟩ : LfsClient).download
        "ab" 2 Option.none Option.none []
        (fun _ => ⟨200, "basic", [[("href", PyVal.str "u")]]⟩) =
      .ok ⟨.basicTransferAdapter, "download", [("href", PyVal.str "u")]⟩) := by
  have h1 := c5_adapter_dispatch
    ⟨"http://lfs", Option.none, Option.none, TRANSFER_ADAPTER_PRIORITY⟩
    [1] Option.none Option.none [] "ab" 2 ⟨"unknown", [[("href", PyVal.str "u")]]⟩
    [("href", PyVal.str "u")] [] (fun _ => ⟨200, "unknown", [[("href", PyVal.str "u")]]⟩)
    (fun _ => rfl) rfl
  have h2 := c5_adapter_dispatch
    ⟨"http://lfs", Option.none, Option.none, TRANSFER_ADAPTER_PRIORITY⟩
    [1] Option.none Option.none [] "ab" 2 ⟨"basic", [[("href", PyVal.str "u")]]⟩
    [("href", PyVal.str "u")] [] (fun _ => ⟨200, "basic", [[("href", PyVal.str "u")]]⟩)
    (fun _ => rfl) rfl
  obtain ⟨hu1, hd1⟩ := h1.1 (by decide)
  obtain ⟨hu2, hd2⟩ := h2.2 TransferAdapterClass.basicTransferAdapter (by decide)
  refine ⟨hu1, hd1, ?_, hd2⟩
  rw [hu2]
  decide

/-- Claim C7 counterexample: a client successfully constructed with the
empty string as its bearer token - a configured token on the claim's
reading, since the constructor treats any non-`None` token as supplied -
adds no `Authorization` header at all, because `_add_auth` tests Python
truthiness and the empty string is falsy; the claim says it would set
`Bearer ` (with the empty token). -/
theorem c7_add_auth_empty_token_counterexample :
    LfsClient.init "http://lfs" (some "") Option.none TRANSFER_ADAPTER_PRIORITY =
      .ok ⟨"http://lfs", some "", Option.none, TRANSFER_ADAPTER_PRIORITY⟩ ∧
    (⟨"http://lfs", some "", Option.none, TRANSFER_ADAPTER_PRIORITY⟩ : LfsClient).add_auth []
      = [] := by
  decide

/-- Claim C7 (amended): for every successfully constructed client (at most
one auth form set), `_add_auth` sets at most one `Authorization` header:
`Bearer {token}` when a non-empty bearer token is configured, `Basic
{base64(user:pass)}` when basic credentials are configured, and no header
at all when neither is configured or the configured bearer token is the
empty string (Python truthiness). -/
theorem c7_add_auth_amended (c : LfsClient) (headers : PyDict)
    (hexcl : c.authToken = Option.none ∨ c.basicAuth = Option.none) :
    (∀ t, c.authToken = some t → t ≠ "" →
      c.add_auth headers = dictInsert "Authorization" (.str ("Bearer " ++ t)) headers) ∧
    (∀ user pw, c.basicAuth = some (user, pw) →
      c.add_auth headers =
        dictInsert "Authorization"
          (.str ("Basic " ++ b64encode (asciiBytes (user ++ ":" ++ pw)))) headers) ∧
    ((c.authToken = Option.none ∨ c.authToken = some "") → c.basicAuth = Option.none →
      c.add_auth headers = headers) := by
  obtain ⟨url, tok, ba, ta⟩ := c
  refine ⟨?_, ?_, ?_⟩
  · intro t ht hne
    have hba : ba = Option.none := by
      rcases hexcl with h | h
      · have h' : tok = Option.none := h
        have ht' : tok = some t := ht
        rw [ht'] at h'
        exact absurd h' (by simp)
      · exact h
    have ht' : tok = some t := ht
    subst hba
    subst ht'
    simp [LfsClient.add_auth, hne]
  · intro user pw hba
    have hba' : ba = some (user, pw) := hba
    have htok : tok = Option.none := by
      rcases hexcl with h | h
      · exact h
      · have h' : ba = Option.none := h
        rw [hba'] at h'
        exact absurd h' (by simp)
    subst hba'
    subst htok
    simp [LfsClient.add_auth]
  · intro htok hba
    have hba' : ba = Option.none := hba
    subst hba'
    rcases htok with h | h
    · have h' : tok = Option.none := h
      subst h'
      simp [LfsClient.add_auth]
    · have h' : tok = some "" := h
      subst h'
      simp [LfsClient.add_auth]

/-- Witness for C7 (amended), applying the theorem to a bearer-token client
and to a basic-credentials client. -/
theorem c7_add_auth_amended_witness :
    (⟨"http://lfs", some "tokn", Option.none, TRANSFER_ADAPTER_PRIORITY⟩ : LfsClient).add_auth
        [] = [("Authorization", PyVal.str "Bearer tokn")] ∧
    (⟨"http://lfs", Option.none, some ("user", "pass"),
        TRANSFER_ADAPTER_PRIORITY⟩ : LfsClient).add_auth [] =
      [("Authorization", PyVal.str "Basic dXNlcjpwYXNz")] := by
  constructor
  · have hA := (c7_add_auth_amended
      ⟨"http://lfs", some "tokn", Option.none, TRANSFER_ADAPTER_PRIORITY⟩ []
      (Or.inr rfl)).1 "tokn" rfl (by decide)
    rw [hA]
    decide
  · have hB := (c7_add_auth_amended
      ⟨"http://lfs", Option.none, some ("user", "pass"), TRANSFER_ADAPTER_PRIORITY⟩ []
      (Or.inl rfl)).2.1 "user" "pass" rfl
    rw [hB]
    decide

/-- Looking up the key just inserted. -/
theorem dictLookup_insert_self {α β : Type} [DecidableEq α] (k : α) (v : β)
    (d : List (α × β)) : dictLookup k (dictInsert k v d) = some v := by
  induction d with
  | nil => simp [dictInsert, dictLookup]
  | cons kv rest ih =>
      obtain ⟨k0, v0⟩ := kv
      by_cases h : k0 = k
      · subst h
        simp [dictInsert, dictLookup]
      · simp [dictInsert, dictLookup, h, ih]

/-- Looking up a different key after an insert. -/
theorem dictLookup_insert_ne {α β : Type} [DecidableEq α] {k k' : α} (v : β)
    (d : List (α × β)) (h : k' ≠ k) :
    dictLookup k' (dictInsert k v d) = dictLookup k' d := by
  have hkk : ¬(k = k') := fun hh => h hh.symm
  induction d with
  | nil => simp [dictInsert, dictLookup, hkk]
  | cons kv rest ih =>
      obtain ⟨k0, v0⟩ := kv
      by_cases h0 : k0 = k
      · subst h0
        simp [dictInsert, dictLookup, hkk]
      · by_cases h1 : k0 = k'
        · subst h1
          simp [dictInsert, dictLookup, h0]
        · simp [dictInsert, dictLookup, h0, h1, ih]

/-- Prepending `x-` to a key is injective. -/
theorem xdash_inj {k k' : String} (h : "x-" ++ k = "x-" ++ k') : k = k' := by
  have h2 := congrArg String.data h
  rw [String.data_append, String.data_append] at h2
  have h3 : k.data = k'.data := List.append_cancel_left h2
  cases k
  cases k'
  exact congrArg String.mk h3

/-- No `x-`-prefixed key is `oid`. -/
theorem oid_ne_xdash (k : String) : "oid" ≠ "x-" ++ k := by
  intro h
  have h2 := congrArg String.data h
  rw [String.data_append] at h2
  have h3 : (['o', 'i', 'd'] : List Char) = 'x' :: '-' :: k.data := h2
  injection h3 with h4 h5
  exact absurd h4 (by decide)

/-- No `x-`-prefixed key is `size`. -/
theorem size_ne_xdash (k : String) : "size" ≠ "x-" ++ k := by
  intro h
  have h2 := congrArg String.data h
  rw [String.data_append] at h2
  have h3 : (['s', 'i', 'z', 'e'] : List Char) = 'x' :: '-' :: k.data := h2
  injection h3 with h4 h5
  exact absurd h4 (by decide)

/-- Keys that are not `x-`-images of the extras are untouched by
`_add_extra_object_attributes`. -/
theorem add_extra_lookup_frame (extras : List (String × PyVal)) :
    ∀ (attrs : PyDict) (key : String),
    (∀ k, k ∈ extras.map Prod.fst → key ≠ "x-" ++ k) →
    dictLookup key (add_extra_object_attributes attrs extras) = dictLookup key attrs := by
  induction extras with
  | nil =>
      intro attrs key _
      rfl
  | cons kv rest ih =>
      intro attrs key h
      obtain ⟨k0, v0⟩ := kv
      have hstep : add_extra_object_attributes attrs ((k0, v0) :: rest) =
          add_extra_object_attributes (dictInsert ("x-" ++ k0) v0 attrs) rest := rfl
      rw [hstep, ih _ key (fun k hk => h k (by simp [hk]))]
      exact dictLookup_insert_ne v0 attrs (h k0 (by simp))

/-- Each extra key `k` with pairwise-distinct extras ends up stored under
`x-k` with its value intact. -/
theorem add_extra_lookup_mem (extras : List (String × PyVal)) :
    ∀ (attrs : PyDict) (k : String) (v : PyVal),
    (extras.map Prod.fst).Nodup → (k, v) ∈ extras →
    dictLookup ("x-" ++ k) (add_extra_object_attributes attrs extras) = some v := by
  induction extras with
  | nil =>
      intro _ _ _ _ hmem
      cases hmem
  | cons kv rest ih =>
      intro attrs k v hnd hmem
      obtain ⟨k0, v0⟩ := kv
      have hstep : add_extra_object_attributes attrs ((k0, v0) :: rest) =
          add_extra_object_attributes (dictInsert ("x-" ++ k0) v0 attrs) rest := rfl
      rw [hstep]
      have hnd2 : (k0 :: rest.map Prod.fst).Nodup := hnd
      have hnd' := List.nodup_cons.mp hnd2
      rcases List.mem_cons.mp hmem with heq | hmem'
      · have hk : k = k0 := congrArg Prod.fst heq
        have hv : v = v0 := congrArg Prod.snd heq
        subst hk
        subst hv
        rw [add_extra_lookup_frame rest _ _ ?_]
        · exact dictLookup_insert_self _ _ _
        · intro k' hk' hcontra
          exact hnd'.1 (xdash_inj hcontra ▸ hk')
      · exact ih _ k v hnd'.2 hmem'

/-- Claim C8: every extra `(k, v)` passed to `upload`/`download` lands in
the object entry under key `x-k` with its value forwarded verbatim, and
every pre-existing key that is not the `x-`-image of an extra - `oid` and
`size` in particular, unconditionally - keeps its binding. -/
theorem c8_extras_x_prefixed_frame (attrs : PyDict) (extras : List (String × PyVal))
    (hnd : (extras.map Prod.fst).Nodup) :
    (∀ k v, (k, v) ∈ extras →
      dictLookup ("x-" ++ k) (add_extra_object_attributes attrs extras) = some v) ∧
    (∀ key, (∀ k, k ∈ extras.map Prod.fst → key ≠ "x-" ++ k) →
      dictLookup key (add_extra_object_attributes attrs extras) = dictLookup key attrs) ∧
    dictLookup "oid" (add_extra_object_attributes attrs extras) = dictLookup "oid" attrs ∧
    dictLookup "size" (add_extra_object_attributes attrs extras) =
      dictLookup "size" attrs := by
  refine ⟨fun k v hmem => add_extra_lookup_mem extras attrs k v hnd hmem,
    fun key hkey => add_extra_lookup_frame extras attrs key hkey,
    add_extra_lookup_frame extras attrs "oid" (fun k _ => oid_ne_xdash k),
    add_extra_lookup_frame extras attrs "size" (fun k _ => size_ne_xdash k)⟩

/-- Witness for C8: on the attribute dict of a computed object, one extra
`filename` is stored as `x-filename` and `oid`/`size` keep their values. -/
theorem c8_extras_x_prefixed_frame_witness :
    ((([("filename", PyVal.str "a.bin")] : List (String × PyVal)).map Prod.fst).Nodup) ∧
    dictLookup "x-filename"
      (add_extra_object_attributes (objectAttributes "d41d" 3)
        [("filename", PyVal.str "a.bin")]) = some (PyVal.str "a.bin") ∧
    dictLookup "oid"
      (add_extra_object_attributes (objectAttributes "d41d" 3)
        [("filename", PyVal.str "a.bin")]) = some (PyVal.str "d41d") ∧
    dictLookup "size"
      (add_extra_object_attributes (objectAttributes "d41d" 3)
        [("filename", PyVal.str "a.bin")]) = some (PyVal.int 3) := by
  have h := c8_extras_x_prefixed_frame (objectAttributes "d41d" 3)
    [("filename", PyVal.str "a.bin")] (by decide)
  refine ⟨by decide, ?_, ?_, ?_⟩
  · exact h.1 "filename" (PyVal.str "a.bin") (by decide)
  · rw [h.2.2.1]
    decide
  · rw [h.2.2.2]
    decide

/-- Claim C9: the serialized batch payload's `transfers` field is the
caller-supplied sequence when one is given, and otherwise the client's
configured adapter preference order - for the default
`TRANSFER_ADAPTER_PRIORITY` constructor argument that order is
`['multipart-basic', 'basic']`; `batchRequest` carries exactly
`batchPayload` as its body. -/
theorem c9_batch_transfers_default (c : LfsClient) (pfx : Option String)
    (operation : String) (objects : List PyDict) (ref : Option String)
    (ts : List String) (u : String) (tok : Option String)
    (ba : Option (String × String)) :
    (c.batchPayload operation objects ref Option.none).transfers = c.transferAdapters ∧
    (c.batchPayload operation objects ref (some ts)).transfers = ts ∧
    ((⟨pyRstripSlash u, tok, ba, TRANSFER_ADAPTER_PRIORITY⟩ : LfsClient).batchPayload
        operation objects ref Option.none).transfers = ["multipart-basic", "basic"] ∧
    (c.batchRequest pfx operation objects ref Option.none).payload =
      c.batchPayload operation objects ref Option.none :=
  ⟨rfl, rfl, rfl, rfl⟩

/-- Claim C10: `upload`/`download` build the URL prefix whenever at least
one of organization/repo is non-None, by formatting `'{}/{}'`, in which
Python renders `None` as the literal text `None`; with exactly one of the
two absent, the batch URL therefore contains `None` as a path segment
instead of the call being rejected or the prefix omitted. -/
theorem c10_prefix_none_literal (organization repo : Option String)
    (o r : String) :
    (organization.isSome ∨ repo.isSome →
      prefixOrgRepo organization repo =
        some (formatNoneStr organization ++ "/" ++ formatNoneStr repo)) ∧
    prefixOrgRepo Option.none (some r) = some ("None/" ++ r) ∧
    prefixOrgRepo (some o) Option.none = some (o ++ "/None") ∧
    prefixOrgRepo Option.none Option.none = Option.none ∧
    ((⟨"http://lfs", Option.none, Option.none,
        TRANSFER_ADAPTER_PRIORITY⟩ : LfsClient).batchRequest
        (prefixOrgRepo Option.none (some "myrepo")) "upload" [] Option.none
        Option.none).url =
      "http://lfs/None/myrepo/objects/batch" := by
  refine ⟨?_, rfl, ?_, rfl, by decide⟩
  · intro h
    rcases organization with _ | o'
    · rcases repo with _ | r'
      · simp at h
      · rfl
    · rfl
  · show some (o ++ "/" ++ "None") = some (o ++ "/None")
    rw [String.append_assoc]
    rfl

/-- Witness for C10: with organization absent and repository `myrepo`, the
prefix is the literal `None/myrepo` and the batch URL carries the `None`
segment. -/
theorem c10_prefix_none_literal_witness :
    prefixOrgRepo Option.none (some "myrepo") = some "None/myrepo" ∧
    ((⟨"http://lfs", Option.none, Option.none,
        TRANSFER_ADAPTER_PRIORITY⟩ : LfsClient).batchRequest
        (prefixOrgRepo Option.none (some "myrepo")) "upload" [] Option.none
        Option.none).url =
      "http://lfs/None/myrepo/objects/batch" := by
  have h := c10_prefix_none_literal Option.none (some "myrepo") "o" "myrepo"
  refine ⟨?_, h.2.2.2.2⟩
  rw [h.1 (Or.inr rfl)]
  decide

end Giftless
